import Mathlib

/-!
Shallow embedding of the pronunciation-analysis backend
(`chinese-learning-backend`): the data model
(`pronunciation-attempt.entity.ts`, `user.entity.ts`), the Gemini
response parser (`gemini` service inside `elevenlabs.service.ts`), and the
orchestration workflow of `pronunciation.service.ts`.

JavaScript numbers are modelled as rationals, nullable columns as
`Option`, and each external HTTP call as an environment field describing
that call's outcome.  The workflow records the attempt row's state after
every database write in a trace, so temporal claims about the row's
lifecycle can be stated.
-/

namespace HocTieng

/-- AnalysisResult interface from pronunciation-attempt.entity.ts. -/
structure AnalysisResult where
  overallScore : ℚ
  toneAccuracy : ℚ
  pronunciationErrors : List String
  suggestions : List String
  detailedFeedback : String
deriving DecidableEq

/-- AudioMetadata interface from pronunciation-attempt.entity.ts. -/
structure AudioMetadata where
  duration : ℚ
  sampleRate : ℚ
  format : String
  size : ℚ
deriving DecidableEq

/-- The processing_status column values of pronunciation_attempts. -/
inductive ProcessingStatus where
  | pending
  | processing
  | completed
  | failed
deriving DecidableEq

/-- PronunciationAttempt entity (one row of pronunciation_attempts). -/
structure PronunciationAttempt where
  id : String
  userId : Option String
  originalText : String
  audioFileUrl : String
  ipfsHash : String
  analysisResult : AnalysisResult
  audioMetadata : AudioMetadata
  overallScore : ℚ
  processingStatus : ProcessingStatus
  errorMessage : Option String
  createdAt : ℕ
deriving DecidableEq

/-- User entity fields used by the pronunciation workflow. -/
structure User where
  id : String
  level : String
  totalAttempts : ℕ
  averageScore : Option ℚ
deriving DecidableEq

/-! ## JavaScript helpers -/

/-- JavaScript `x || 0` on a nullable number: null and 0 both give 0. -/
def jsOrZeroQ : Option ℚ → ℚ
  | some q => q
  | none => 0

/-- JavaScript truthiness of an optional string: undefined and "" are falsy. -/
def jsTruthyStr : Option String → Option String
  | some s => if s = "" then none else some s
  | none => none

/-- JavaScript Math.round: round half towards positive infinity. -/
def jsRound (q : ℚ) : ℤ := Int.floor (q + 1 / 2)

/-- Math.round(q * 10) / 10, the one-decimal rounding of updateUserStatistics. -/
def round1 (q : ℚ) : ℚ := (jsRound (q * 10) : ℚ) / 10

/-! ## Gemini response parser (parseAnalysisResult) -/

/-- A JSON value, as produced by JSON.parse. -/
inductive Json where
  | num (q : ℚ)
  | str (s : String)
  | bool (b : Bool)
  | null
  | arr (elems : List Json)
  | obj (fields : List (String × Json))

/-- A JavaScript number that may be NaN: the clamped scores of
parseAnalysisResult are built with the coercing Math.min and Math.max, so
unlike the rational workflow scores they can be NaN. -/
inductive JsNumber where
  | nan
  | num (q : ℚ)
deriving DecidableEq

/-- JavaScript truthiness of a JSON value: 0, the empty string, false and
null are falsy; every array and object is truthy. -/
def Json.truthy : Json → Bool
  | .num q => q != 0
  | .str s => s != ""
  | .bool b => b
  | .null => false
  | .arr _ => true
  | .obj _ => true

/-- JavaScript `v || d` on a property that may be absent: undefined and
every falsy value give d. -/
def jsOrElse (v : Option Json) (d : Json) : Json :=
  match v with
  | some j => if j.truthy then j else d
  | none => d

/-- JavaScript ToNumber on a JSON value.  Numbers pass through, booleans
and null have fixed conversions, and a plain object converts through the
primitive string form `[object Object]`, hence to NaN.  Strings and
arrays convert through the JS StringToNumber parse of their string form,
which is not reimplemented here: it is supplied as `strToNum` and
`arrToNum` and every theorem below is quantified over both. -/
def Json.toNumber (strToNum : String → JsNumber)
    (arrToNum : List Json → JsNumber) : Json → JsNumber
  | .num q => .num q
  | .str s => strToNum s
  | .bool b => .num (if b then 1 else 0)
  | .null => .num 0
  | .arr l => arrToNum l
  | .obj _ => .nan

/-- JavaScript Math.min on two numbers: NaN if either operand is NaN. -/
def jsMin (a b : JsNumber) : JsNumber :=
  match a, b with
  | .num x, .num y => .num (min x y)
  | _, _ => .nan

/-- JavaScript Math.max on two numbers: NaN if either operand is NaN. -/
def jsMax (a b : JsNumber) : JsNumber :=
  match a, b with
  | .num x, .num y => .num (max x y)
  | _, _ => .nan

/-- Property access `j.key` on a parsed JSON value: a field lookup on an
object (for duplicate keys JSON.parse keeps the last), undefined on every
non-object. -/
def Json.getProp (j : Json) (key : String) : Option Json :=
  match j with
  | .obj fields => (fields.reverse.find? (fun f => f.1 == key)).map (fun f => f.2)
  | _ => none

/-- Index of the first brace-open character, if any. -/
def firstBrace (cs : List Char) : Option ℕ :=
  cs.findIdx? (· = '{')

/-- Index of the last brace-close character, if any. -/
def lastClose (cs : List Char) : Option ℕ :=
  match cs.reverse.findIdx? (· = '}') with
  | some k => some (cs.length - 1 - k)
  | none => none

/-- The regex match `analysisText.match(/\x7b[\s\S]*\x7d/)`: greedy, so it
spans from the first brace-open to the last brace-close, provided the
close comes strictly after the open. -/
def extractJson (s : String) : Option String :=
  match firstBrace s.data, lastClose s.data with
  | some i, some j =>
      if i < j then some (String.mk ((s.data.drop i).take (j - i + 1))) else none
  | _, _ => none

/-- Math.max(0, Math.min(100, v || 0)) applied to a parsed field: the
falsy-or-absent default, then the two coercing comparisons. -/
def clampScore (strToNum : String → JsNumber) (arrToNum : List Json → JsNumber)
    (v : Option Json) : JsNumber :=
  jsMax (.num 0) (jsMin (.num 100)
    (Json.toNumber strToNum arrToNum (jsOrElse v (.num 0))))

/-- The value shapes parseAnalysisResult actually produces at runtime:
the TS interface declares numbers and string arrays, but the code only
clamps with the coercing Math.min/Math.max and checks Array.isArray, so a
score may be NaN and the array and feedback fields hold raw JSON
values. -/
structure JsAnalysisResult where
  overallScore : JsNumber
  toneAccuracy : JsNumber
  pronunciationErrors : List Json
  suggestions : List Json
  detailedFeedback : Json

/-- The fallback result built when no JSON object is found or parsing
fails (gemini service, parseAnalysisResult). -/
def fallbackResult (analysisText : String) : JsAnalysisResult :=
  { overallScore := .num 75
    toneAccuracy := .num 70
    pronunciationErrors := [.str "Không thể phân tích chi tiết"]
    suggestions := [.str "Hãy thử lại với âm thanh rõ ràng hơn"]
    detailedFeedback := .str (String.mk (analysisText.data.take 500)) }

/-- parseAnalysisResult of the gemini service.  `jsonParse` models
JSON.parse on the extracted candidate string; `none` models a parse
exception, which the source catches before falling through to the
fallback.  A null parse result also falls back: the property accesses on
it would throw a TypeError inside the same try block. -/
def parseAnalysisResult (jsonParse : String → Option Json)
    (strToNum : String → JsNumber) (arrToNum : List Json → JsNumber)
    (analysisText : String) : JsAnalysisResult :=
  match extractJson analysisText with
  | some jsonStr =>
      match jsonParse jsonStr with
      | some .null => fallbackResult analysisText
      | some parsed =>
          { overallScore := clampScore strToNum arrToNum (parsed.getProp "overallScore")
            toneAccuracy := clampScore strToNum arrToNum (parsed.getProp "toneAccuracy")
            pronunciationErrors :=
              match parsed.getProp "pronunciationErrors" with
              | some (.arr l) => l
              | _ => []
            suggestions :=
              match parsed.getProp "suggestions" with
              | some (.arr l) => l
              | _ => []
            detailedFeedback :=
              jsOrElse (parsed.getProp "detailedFeedback")
                (.str "Không có phản hồi chi tiết.") }
      | none => fallbackResult analysisText
  | none => fallbackResult analysisText

/-! ## Workflow environment

External collaborators of PronunciationService, modelled as the outcome
each HTTP / database call would have during one run. -/

/-- Pinata upload response (PinataUploadResponse, pinata.service.ts). -/
structure PinataUploadResponse where
  IpfsHash : String
  PinSize : ℕ
deriving DecidableEq

/-- One run's external world: the Pinata upload outcome (as a function of
the uploaded buffer, metadata and attempt id), the Gemini analysis outcome
(as a function of audio URL, original text and user level), whether the
user-statistics row update would throw, the configured gateway host, and
the id / creation instant the database assigns to the new row. -/
structure Env where
  pinataUpload : List ℕ → AudioMetadata → String → Except String PinataUploadResponse
  gemini : String → String → String → Except String AnalysisResult
  userUpdateThrows : Option String
  gatewayUrl : String
  newId : String
  now : ℕ

/-- PinataService.getPublicUrl: a pure URL template. -/
def getPublicUrl (gatewayUrl ipfsHash : String) : String :=
  "https://" ++ gatewayUrl ++ "/ipfs/" ++ ipfsHash

/-- CreatePronunciationAttemptRequest from pronunciation.service.ts. -/
structure CreatePronunciationAttemptRequest where
  userId : Option String
  originalText : String
  audioBuffer : List ℕ
  audioMetadata : AudioMetadata

/-- PronunciationAnalysisResponse from pronunciation.service.ts. -/
structure PronunciationAnalysisResponse where
  id : String
  originalText : String
  audioFileUrl : String
  analysisResult : AnalysisResult
  overallScore : ℚ
  processingStatus : ProcessingStatus
  createdAt : ℕ
deriving DecidableEq

/-- User table lookup: userRepository.findOne with a condition on id. -/
def findUser (users : List User) (uid : String) : Option User :=
  users.find? (fun u => u.id == uid)

/-! ## PronunciationService helpers -/

/-- createInitialAttempt: the row saved in step 1, pending status,
placeholder empty strings and a zeroed analysis result. -/
def createInitialAttempt (env : Env)
    (request : CreatePronunciationAttemptRequest) : PronunciationAttempt :=
  { id := env.newId
    userId := request.userId
    originalText := request.originalText
    audioMetadata := request.audioMetadata
    processingStatus := .pending
    audioFileUrl := ""
    ipfsHash := ""
    analysisResult :=
      { overallScore := 0
        toneAccuracy := 0
        pronunciationErrors := []
        suggestions := []
        detailedFeedback := "" }
    overallScore := 0
    errorMessage := none
    createdAt := env.now }

/-- updateProcessingStatus: writes the status column; the errorMessage
column is written only when a non-empty message is supplied (the source
passes `errorMessage || undefined`, and the ORM skips undefined columns). -/
def updateProcessingStatus (row : PronunciationAttempt)
    (status : ProcessingStatus) (errorMessage : Option String) :
    PronunciationAttempt :=
  { row with
      processingStatus := status
      errorMessage :=
        match errorMessage with
        | some m => if m = "" then row.errorMessage else some m
        | none => row.errorMessage }

/-- uploadAudioToIPFS: calls pinataService.uploadAudio, derives the public
URL, and wraps any error with an upload-specific message. -/
def uploadAudioToIPFS (env : Env) (audioBuffer : List ℕ)
    (metadata : AudioMetadata) (attemptId : String) :
    Except String (String × String) :=
  match env.pinataUpload audioBuffer metadata attemptId with
  | .ok uploadResult =>
      .ok (uploadResult.IpfsHash, getPublicUrl env.gatewayUrl uploadResult.IpfsHash)
  | .error e => .error ("Failed to upload audio file: " ++ e)

/-- updateAttemptWithIPFS: persists the content hash and public URL. -/
def updateAttemptWithIPFS (row : PronunciationAttempt)
    (ipfsHash audioUrl : String) : PronunciationAttempt :=
  { row with ipfsHash := ipfsHash, audioFileUrl := audioUrl }

/-- performAIAnalysis: resolves the user's level (default Beginner when no
user id is supplied or the lookup finds nothing), calls the Gemini
service, and wraps any error. -/
def performAIAnalysis (env : Env) (users : List User) (audioUrl : String)
    (originalText : String) (userId : Option String) :
    Except String AnalysisResult :=
  let userLevel :=
    match jsTruthyStr userId with
    | some uid =>
        match findUser users uid with
        | some user => user.level
        | none => "Beginner"
    | none => "Beginner"
  match env.gemini audioUrl originalText userLevel with
  | .ok analysisResult => .ok analysisResult
  | .error e => .error ("AI analysis failed: " ++ e)

/-- finalizeAnalysis: persists the analysis result, mirrors its overall
score into the score column, and sets completed status, all in one
update. -/
def finalizeAnalysis (row : PronunciationAttempt)
    (analysisResult : AnalysisResult) : PronunciationAttempt :=
  { row with
      analysisResult := analysisResult
      overallScore := analysisResult.overallScore
      processingStatus := .completed }

/-- updateUserStatistics: silently returns when the user row is missing;
otherwise increments totalAttempts and recomputes the running mean,
rounded to one decimal.  An `error` outcome models the row update
throwing (env.userUpdateThrows). -/
def updateUserStatistics (env : Env) (users : List User) (userId : String)
    (newScore : ℚ) : Except String (List User) :=
  match findUser users userId with
  | none => .ok users
  | some user =>
      match env.userUpdateThrows with
      | some e => .error e
      | none =>
          .ok (users.map (fun u =>
            if u.id == userId then
              { u with
                  totalAttempts := user.totalAttempts + 1
                  averageScore := some (round1
                    ((jsOrZeroQ user.averageScore * user.totalAttempts + newScore)
                      / (user.totalAttempts + 1))) }
            else u))

/-- mapToResponse: projects a row onto the response shape. -/
def mapToResponse (attempt : PronunciationAttempt) :
    PronunciationAnalysisResponse :=
  { id := attempt.id
    originalText := attempt.originalText
    audioFileUrl := attempt.audioFileUrl
    analysisResult := attempt.analysisResult
    overallScore := attempt.overallScore
    processingStatus := attempt.processingStatus
    createdAt := attempt.createdAt }

/-- Outcome of one analyzePronunciation run: every state the attempt row
passed through (one entry per database write, in order), the row's final
state, the value returned or error raised, and the user table after the
run. -/
structure RunResult where
  trace : List PronunciationAttempt
  finalRow : PronunciationAttempt
  response : Except String PronunciationAnalysisResponse
  users : List User

/-- analyzePronunciation: the seven-step orchestration workflow.  Any
error from steps 2 to 7 is caught once at the outer boundary, which marks
the row failed with the error's message and re-raises. -/
def analyzePronunciation (env : Env) (users : List User)
    (request : CreatePronunciationAttemptRequest) : RunResult :=
  let attempt := createInitialAttempt env request
  let row1 := updateProcessingStatus attempt .processing none
  match uploadAudioToIPFS env request.audioBuffer request.audioMetadata env.newId with
  | .error e =>
      { trace := [attempt, row1, updateProcessingStatus row1 .failed (some e)]
        finalRow := updateProcessingStatus row1 .failed (some e)
        response := .error e
        users := users }
  | .ok (ipfsHash, audioUrl) =>
      let row2 := updateAttemptWithIPFS row1 ipfsHash audioUrl
      match performAIAnalysis env users audioUrl request.originalText request.userId with
      | .error e =>
          { trace := [attempt, row1, row2, updateProcessingStatus row2 .failed (some e)]
            finalRow := updateProcessingStatus row2 .failed (some e)
            response := .error e
            users := users }
      | .ok analysisResult =>
          let row3 := finalizeAnalysis row2 analysisResult
          match jsTruthyStr request.userId with
          | none =>
              { trace := [attempt, row1, row2, row3]
                finalRow := row3
                response := .ok (mapToResponse row3)
                users := users }
          | some uid =>
              match updateUserStatistics env users uid analysisResult.overallScore with
              | .error e =>
                  { trace := [attempt, row1, row2, row3,
                              updateProcessingStatus row3 .failed (some e)]
                    finalRow := updateProcessingStatus row3 .failed (some e)
                    response := .error e
                    users := users }
              | .ok users2 =>
                  { trace := [attempt, row1, row2, row3]
                    finalRow := row3
                    response := .ok (mapToResponse row3)
                    users := users2 }

/-! ## Paginated listing -/

/-- Result shape of getUserPronunciationAttempts. -/
structure PaginatedAttempts where
  attempts : List PronunciationAnalysisResponse
  total : ℕ
  totalPages : ℕ
deriving DecidableEq

/-- The DESC order on created_at used by the listing query. -/
def byCreatedAtDesc (a b : PronunciationAttempt) : Prop :=
  b.createdAt ≤ a.createdAt

instance : DecidableRel byCreatedAtDesc := fun a b =>
  inferInstanceAs (Decidable (b.createdAt ≤ a.createdAt))

instance : IsTotal PronunciationAttempt byCreatedAtDesc :=
  ⟨fun a b => (Nat.le_total a.createdAt b.createdAt).symm⟩

instance : IsTrans PronunciationAttempt byCreatedAtDesc :=
  ⟨fun _ _ _ hab hbc => le_trans hbc hab⟩

/-- getUserPronunciationAttempts: findAndCount over the user's rows
ordered created_at DESC with skip (page-1)*limit and take limit, and
totalPages = Math.ceil(total / limit). -/
def getUserPronunciationAttempts (db : List PronunciationAttempt)
    (userId : String) (page limit : ℕ) : PaginatedAttempts :=
  let matching := db.filter (fun a => a.userId == some userId)
  let ordered := matching.insertionSort byCreatedAtDesc
  let pageItems := (ordered.drop ((page - 1) * limit)).take limit
  { attempts := pageItems.map mapToResponse
    total := matching.length
    totalPages := Nat.ceil ((matching.length : ℚ) / (limit : ℚ)) }

/-! ## General helper lemmas -/

/-- Nat.ceil of a rational quotient of naturals is the usual rounded-up
natural division. -/
theorem natCeil_cast_div (t l : ℕ) (hl : 0 < l) :
    Nat.ceil ((t : ℚ) / (l : ℚ)) = (t + l - 1) / l := by
  have hl' : (0 : ℚ) < l := by exact_mod_cast hl
  apply le_antisymm
  · rw [Nat.ceil_le, div_le_iff₀ hl']
    have h1 := Nat.div_add_mod (t + l - 1) l
    have h2 := Nat.mod_lt (t + l - 1) hl
    have key : t ≤ (t + l - 1) / l * l := by
      have hmul : (t + l - 1) / l * l = l * ((t + l - 1) / l) := by ring
      omega
    calc (t : ℚ) ≤ (((t + l - 1) / l * l : ℕ) : ℚ) := by exact_mod_cast key
      _ = (((t + l - 1) / l : ℕ) : ℚ) * (l : ℚ) := by push_cast; ring
  · have hc := Nat.le_ceil ((t : ℚ) / (l : ℚ))
    rw [div_le_iff₀ hl'] at hc
    have htc : t ≤ Nat.ceil ((t : ℚ) / (l : ℚ)) * l := by exact_mod_cast hc
    have hsucc : t + l - 1 < (Nat.ceil ((t : ℚ) / (l : ℚ)) + 1) * l := by
      have hmul : (Nat.ceil ((t : ℚ) / (l : ℚ)) + 1) * l
          = Nat.ceil ((t : ℚ) / (l : ℚ)) * l + l := by ring
      omega
    exact Nat.lt_succ_iff.mp ((Nat.div_lt_iff_lt_mul hl).mpr hsucc)

/-- A string with a non-empty prefix is non-empty. -/
theorem prefixed_ne_empty (p e : String) (hp : 0 < p.length) : p ++ e ≠ "" := by
  intro h
  have hlen := congrArg String.length h
  rw [String.length_append] at hlen
  have h0 : ("" : String).length = 0 := rfl
  omega

/-- The four possible row-state traces of one analyzePronunciation run:
upload failure, AI failure after upload, full success (with or without a
statistics update), and statistics-update failure after finalization. -/
theorem trace_cases (env : Env) (users : List User)
    (req : CreatePronunciationAttemptRequest) :
    (∃ e,
      (analyzePronunciation env users req).trace =
        [createInitialAttempt env req,
         updateProcessingStatus (createInitialAttempt env req) .processing none,
         updateProcessingStatus
           (updateProcessingStatus (createInitialAttempt env req) .processing none)
           .failed (some e)]) ∨
    (∃ hash url e,
      (analyzePronunciation env users req).trace =
        [createInitialAttempt env req,
         updateProcessingStatus (createInitialAttempt env req) .processing none,
         updateAttemptWithIPFS
           (updateProcessingStatus (createInitialAttempt env req) .processing none)
           hash url,
         updateProcessingStatus
           (updateAttemptWithIPFS
             (updateProcessingStatus (createInitialAttempt env req) .processing none)
             hash url)
           .failed (some e)]) ∨
    (∃ hash url ar,
      (analyzePronunciation env users req).trace =
        [createInitialAttempt env req,
         updateProcessingStatus (createInitialAttempt env req) .processing none,
         updateAttemptWithIPFS
           (updateProcessingStatus (createInitialAttempt env req) .processing none)
           hash url,
         finalizeAnalysis
           (updateAttemptWithIPFS
             (updateProcessingStatus (createInitialAttempt env req) .processing none)
             hash url)
           ar]) ∨
    (∃ hash url ar e,
      (analyzePronunciation env users req).trace =
        [createInitialAttempt env req,
         updateProcessingStatus (createInitialAttempt env req) .processing none,
         updateAttemptWithIPFS
           (updateProcessingStatus (createInitialAttempt env req) .processing none)
           hash url,
         finalizeAnalysis
           (updateAttemptWithIPFS
             (updateProcessingStatus (createInitialAttempt env req) .processing none)
             hash url)
           ar,
         updateProcessingStatus
           (finalizeAnalysis
             (updateAttemptWithIPFS
               (updateProcessingStatus (createInitialAttempt env req) .processing none)
               hash url)
             ar)
           .failed (some e)]) := by
  rcases hu : uploadAudioToIPFS env req.audioBuffer req.audioMetadata env.newId
    with e | ⟨hash, url⟩
  · exact Or.inl ⟨e, by simp [analyzePronunciation, hu]⟩
  · rcases ha : performAIAnalysis env users url req.originalText req.userId with e | ar
    · exact Or.inr (Or.inl ⟨hash, url, e, by simp [analyzePronunciation, hu, ha]⟩)
    · rcases ht : jsTruthyStr req.userId with _ | uid
      · exact Or.inr (Or.inr (Or.inl ⟨hash, url, ar,
          by simp [analyzePronunciation, hu, ha, ht]⟩))
      · rcases hs : updateUserStatistics env users uid ar.overallScore with e | users2
        · exact Or.inr (Or.inr (Or.inr ⟨hash, url, ar, e,
            by simp [analyzePronunciation, hu, ha, ht, hs]⟩))
        · exact Or.inr (Or.inr (Or.inl ⟨hash, url, ar,
            by simp [analyzePronunciation, hu, ha, ht, hs]⟩))

/-! ## Concrete demonstration values -/

/-- Sample audio metadata. -/
def mdDemo : AudioMetadata := ⟨3, 44100, "mp3", 52000⟩

/-- Sample Gemini analysis result. -/
def arDemo : AnalysisResult := ⟨88, 90, [], ["luyện thanh điệu"], "phát âm tốt"⟩

/-- Sample user row with three completed attempts averaging 80. -/
def userDemo : User := ⟨"u1", "HSK2", 3, some 80⟩

/-- Anonymous submission request. -/
def reqAnon : CreatePronunciationAttemptRequest := ⟨none, "你好", [1, 2, 3], mdDemo⟩

/-- Submission request carrying a user id. -/
def reqUser : CreatePronunciationAttemptRequest := ⟨some "u1", "你好", [1, 2, 3], mdDemo⟩

/-- Sample Pinata upload response. -/
def upResDemo : PinataUploadResponse := ⟨"QmDemoHash", 3⟩

/-- Environment in which every external call succeeds. -/
def envOk : Env :=
  ⟨fun _ _ _ => .ok upResDemo, fun _ _ _ => .ok arDemo, none,
   "gw.pinata.cloud", "att-1", 5⟩

/-- Environment in which the Pinata upload fails. -/
def envUploadFail : Env :=
  ⟨fun _ _ _ => .error "network down", fun _ _ _ => .ok arDemo, none,
   "gw.pinata.cloud", "att-1", 5⟩

/-- Environment in which the Gemini call fails after a successful upload. -/
def envAIFail : Env :=
  ⟨fun _ _ _ => .ok upResDemo, fun _ _ _ => .error "quota exceeded", none,
   "gw.pinata.cloud", "att-1", 5⟩

/-- Environment in which the user-statistics row update throws. -/
def envStatsFail : Env :=
  ⟨fun _ _ _ => .ok upResDemo, fun _ _ _ => .ok arDemo, some "stats write failed",
   "gw.pinata.cloud", "att-1", 5⟩

/-- One attempt row of the 15-row pagination example. -/
def mkRowDemo (n : ℕ) : PronunciationAttempt :=
  ⟨toString n, some "u1", "你", "", "", ⟨0, 0, [], [], ""⟩, mdDemo, 0, .pending, none, n⟩

/-- Fifteen attempt rows belonging to user u1. -/
def db15demo : List PronunciationAttempt := (List.range 15).map mkRowDemo

/-! ## Claim theorems -/

/-- C1: when the upload, the AI analysis and the persistence-side
statistics update all succeed, the returned response has completed status
and an overallScore equal to analysisResult.overallScore; moreover at
every point of any run, a row in completed status has overallScore equal
to analysisResult.overallScore. -/
theorem c1_success_completed_and_scores_agree (env : Env) (users : List User)
    (req : CreatePronunciationAttemptRequest) :
    (∀ upRes ar,
      env.pinataUpload req.audioBuffer req.audioMetadata env.newId = .ok upRes →
      (∀ url txt lvl, env.gemini url txt lvl = .ok ar) →
      env.userUpdateThrows = none →
      ∃ resp, (analyzePronunciation env users req).response = .ok resp ∧
        resp.processingStatus = .completed ∧
        resp.overallScore = resp.analysisResult.overallScore) ∧
    (∀ row ∈ (analyzePronunciation env users req).trace,
      row.processingStatus = .completed →
      row.overallScore = row.analysisResult.overallScore) := by
  constructor
  · intro upRes ar hup hai hstats
    have hu : uploadAudioToIPFS env req.audioBuffer req.audioMetadata env.newId
        = .ok (upRes.IpfsHash, getPublicUrl env.gatewayUrl upRes.IpfsHash) := by
      simp [uploadAudioToIPFS, hup]
    have ha : performAIAnalysis env users (getPublicUrl env.gatewayUrl upRes.IpfsHash)
        req.originalText req.userId = .ok ar := by
      simp [performAIAnalysis, hai]
    refine ⟨mapToResponse (finalizeAnalysis (updateAttemptWithIPFS
        (updateProcessingStatus (createInitialAttempt env req) .processing none)
        upRes.IpfsHash (getPublicUrl env.gatewayUrl upRes.IpfsHash)) ar),
      ?_, by simp [mapToResponse, finalizeAnalysis], by simp [mapToResponse, finalizeAnalysis]⟩
    rcases ht : jsTruthyStr req.userId with _ | uid
    · simp [analyzePronunciation, hu, ha, ht]
    · rcases hs : updateUserStatistics env users uid ar.overallScore with e | users2
      · exfalso
        rw [updateUserStatistics] at hs
        rcases hf : findUser users uid with _ | user <;> rw [hf] at hs <;>
          simp [hstats] at hs
      · simp [analyzePronunciation, hu, ha, ht, hs]
  · intro row hrow
    rcases trace_cases env users req with ⟨e, htr⟩ | ⟨hash, url, e, htr⟩ |
      ⟨hash, url, ar, htr⟩ | ⟨hash, url, ar, e, htr⟩ <;> rw [htr] at hrow <;>
      simp only [List.mem_cons, List.not_mem_nil, or_false] at hrow <;>
      [rcases hrow with rfl | rfl | rfl;
       rcases hrow with rfl | rfl | rfl | rfl;
       rcases hrow with rfl | rfl | rfl | rfl;
       rcases hrow with rfl | rfl | rfl | rfl | rfl] <;>
      simp [createInitialAttempt, updateProcessingStatus, updateAttemptWithIPFS,
        finalizeAnalysis]

/-- Witness for C1: a concrete fully-successful run. -/
theorem c1_witness :
    ∃ resp, (analyzePronunciation envOk [] reqAnon).response = .ok resp ∧
      resp.processingStatus = .completed ∧
      resp.overallScore = resp.analysisResult.overallScore :=
  (c1_success_completed_and_scores_agree envOk [] reqAnon).1 upResDemo arDemo rfl
    (fun _ _ _ => rfl) rfl

/-- C2: when the Pinata upload fails, the run raises the wrapped upload
error, and the row ends failed with a non-empty errorMessage while
audioFileUrl and ipfsHash still hold their initial empty strings. -/
theorem c2_upload_failure_marks_failed_row (env : Env) (users : List User)
    (req : CreatePronunciationAttemptRequest) (e : String)
    (hup : env.pinataUpload req.audioBuffer req.audioMetadata env.newId = .error e) :
    (analyzePronunciation env users req).response
        = .error ("Failed to upload audio file: " ++ e) ∧
    (analyzePronunciation env users req).finalRow.processingStatus = .failed ∧
    (∃ m, (analyzePronunciation env users req).finalRow.errorMessage = some m ∧ m ≠ "") ∧
    (analyzePronunciation env users req).finalRow.audioFileUrl = "" ∧
    (analyzePronunciation env users req).finalRow.ipfsHash = "" := by
  have hwrap : uploadAudioToIPFS env req.audioBuffer req.audioMetadata env.newId
      = .error ("Failed to upload audio file: " ++ e) := by
    simp [uploadAudioToIPFS, hup]
  have hne : ("Failed to upload audio file: " ++ e) ≠ "" := by
    apply prefixed_ne_empty
    have h29 : ("Failed to upload audio file: ").length = 29 := rfl
    omega
  refine ⟨?_, ?_, ⟨"Failed to upload audio file: " ++ e, ?_, hne⟩, ?_, ?_⟩ <;>
    simp [analyzePronunciation, hwrap, updateProcessingStatus, createInitialAttempt, hne]

/-- Witness for C2: a concrete run whose upload fails. -/
theorem c2_witness :
    (analyzePronunciation envUploadFail [] reqAnon).response
        = .error ("Failed to upload audio file: " ++ "network down") ∧
    (analyzePronunciation envUploadFail [] reqAnon).finalRow.processingStatus = .failed ∧
    (∃ m, (analyzePronunciation envUploadFail [] reqAnon).finalRow.errorMessage
        = some m ∧ m ≠ "") ∧
    (analyzePronunciation envUploadFail [] reqAnon).finalRow.audioFileUrl = "" ∧
    (analyzePronunciation envUploadFail [] reqAnon).finalRow.ipfsHash = "" :=
  c2_upload_failure_marks_failed_row envUploadFail [] reqAnon "network down" rfl

/-- C3 counterexample: in a fully successful run the trace contains a row
whose status is already processing while audioFileUrl and ipfsHash are
still empty, because the workflow sets processing status in step 2, before
the step 3 upload. -/
theorem c3_counterexample :
    ∃ row ∈ (analyzePronunciation envOk [] reqAnon).trace,
      row.processingStatus = .processing ∧ row.audioFileUrl = "" ∧ row.ipfsHash = "" := by
  refine ⟨updateProcessingStatus (createInitialAttempt envOk reqAnon) .processing none,
    ?_, rfl, rfl, rfl⟩
  have htr : (analyzePronunciation envOk [] reqAnon).trace
      = [createInitialAttempt envOk reqAnon,
         updateProcessingStatus (createInitialAttempt envOk reqAnon) .processing none,
         updateAttemptWithIPFS
           (updateProcessingStatus (createInitialAttempt envOk reqAnon) .processing none)
           "QmDemoHash" (getPublicUrl "gw.pinata.cloud" "QmDemoHash"),
         finalizeAnalysis
           (updateAttemptWithIPFS
             (updateProcessingStatus (createInitialAttempt envOk reqAnon) .processing none)
             "QmDemoHash" (getPublicUrl "gw.pinata.cloud" "QmDemoHash"))
           arDemo] := rfl
  rw [htr]
  exact List.mem_cons_of_mem _ (List.mem_cons_self _ _)

/-- C3 amended: audioFileUrl and ipfsHash, once non-empty, are preserved
unchanged by every subsequent operation of the run, including the failure
handler; however a row in processing (or failed) status may still have
both fields empty, since status is set to processing before the upload. -/
theorem c3_upload_fields_never_cleared (env : Env) (users : List User)
    (req : CreatePronunciationAttemptRequest) :
    List.Chain'
      (fun a b => (a.audioFileUrl ≠ "" → b.audioFileUrl = a.audioFileUrl) ∧
                  (a.ipfsHash ≠ "" → b.ipfsHash = a.ipfsHash))
      (analyzePronunciation env users req).trace := by
  rcases trace_cases env users req with ⟨e, htr⟩ | ⟨hash, url, e, htr⟩ |
    ⟨hash, url, ar, htr⟩ | ⟨hash, url, ar, e, htr⟩ <;> rw [htr] <;>
    simp [List.chain'_cons, createInitialAttempt, updateProcessingStatus,
      updateAttemptWithIPFS, finalizeAnalysis]

/-- Witness for C3 amended: a concrete run with an AI failure after a
successful upload. -/
theorem c3_witness :
    List.Chain'
      (fun a b => (a.audioFileUrl ≠ "" → b.audioFileUrl = a.audioFileUrl) ∧
                  (a.ipfsHash ≠ "" → b.ipfsHash = a.ipfsHash))
      (analyzePronunciation envAIFail [] reqAnon).trace :=
  c3_upload_fields_never_cleared envAIFail [] reqAnon

/-- C4 counterexample: with a present user and a statistics update that
throws, a run's row reaches completed status and is then moved to failed
by the outer failure handler, so completed is not terminal. -/
theorem c4_counterexample :
    ((analyzePronunciation envStatsFail [userDemo] reqUser).trace.map
        (fun row => row.processingStatus))
      = [ProcessingStatus.pending, ProcessingStatus.processing, ProcessingStatus.processing,
         ProcessingStatus.completed, ProcessingStatus.failed] ∧
    (analyzePronunciation envStatsFail [userDemo] reqUser).finalRow.processingStatus
      = ProcessingStatus.failed ∧
    ∃ row ∈ (analyzePronunciation envStatsFail [userDemo] reqUser).trace,
      row.processingStatus = ProcessingStatus.completed := by
  refine ⟨rfl, rfl, ?_⟩
  have hlen : (analyzePronunciation envStatsFail [userDemo] reqUser).trace.length = 5 := rfl
  refine ⟨(analyzePronunciation envStatsFail [userDemo] reqUser).trace.get
    ⟨3, by rw [hlen]; norm_num⟩, List.get_mem _ _ _, rfl⟩

/-- C4 amended: within a run, failed status is never left once entered;
completed status is never left either, except that a statistics-update
failure after finalization moves the row from completed to failed. -/
theorem c4_terminal_statuses (env : Env) (users : List User)
    (req : CreatePronunciationAttemptRequest) :
    List.Chain'
      (fun a b => a.processingStatus = .failed → b.processingStatus = .failed)
      (analyzePronunciation env users req).trace ∧
    (env.userUpdateThrows = none →
      List.Chain'
        (fun a b => a.processingStatus = .completed → b.processingStatus = .completed)
        (analyzePronunciation env users req).trace) := by
  constructor
  · rcases trace_cases env users req with ⟨e, htr⟩ | ⟨hash, url, e, htr⟩ |
      ⟨hash, url, ar, htr⟩ | ⟨hash, url, ar, e, htr⟩ <;> rw [htr] <;>
      simp [List.chain'_cons, createInitialAttempt, updateProcessingStatus,
        updateAttemptWithIPFS, finalizeAnalysis]
  · intro hnone
    rcases hu : uploadAudioToIPFS env req.audioBuffer req.audioMetadata env.newId
      with e | ⟨hash, url⟩
    · simp [analyzePronunciation, hu, List.chain'_cons, createInitialAttempt,
        updateProcessingStatus]
    · rcases ha : performAIAnalysis env users url req.originalText req.userId with e | ar
      · simp [analyzePronunciation, hu, ha, List.chain'_cons, createInitialAttempt,
          updateProcessingStatus, updateAttemptWithIPFS]
      · rcases ht : jsTruthyStr req.userId with _ | uid
        · simp [analyzePronunciation, hu, ha, ht, List.chain'_cons, createInitialAttempt,
            updateProcessingStatus, updateAttemptWithIPFS, finalizeAnalysis]
        · rcases hs : updateUserStatistics env users uid ar.overallScore with e | users2
          · exfalso
            rw [updateUserStatistics] at hs
            rcases hf : findUser users uid with _ | user <;> rw [hf] at hs <;>
              simp [hnone] at hs
          · simp [analyzePronunciation, hu, ha, ht, hs, List.chain'_cons,
              createInitialAttempt, updateProcessingStatus, updateAttemptWithIPFS,
              finalizeAnalysis]

/-- Witness for C4 amended: a concrete fully-successful run. -/
theorem c4_witness :
    List.Chain'
      (fun a b => a.processingStatus = .failed → b.processingStatus = .failed)
      (analyzePronunciation envOk [] reqAnon).trace ∧
    List.Chain'
      (fun a b => a.processingStatus = .completed → b.processingStatus = .completed)
      (analyzePronunciation envOk [] reqAnon).trace :=
  ⟨(c4_terminal_statuses envOk [] reqAnon).1,
   (c4_terminal_statuses envOk [] reqAnon).2 rfl⟩

/-- C5: when everything through finalization succeeds but the statistics
row update throws, the run re-raises that error and the row ends failed,
even though a completed state was reached during the run. -/
theorem c5_stats_failure_marks_failed (env : Env) (users : List User)
    (req : CreatePronunciationAttemptRequest) (uid : String) (user : User)
    (ar : AnalysisResult) (e : String)
    (huid : req.userId = some uid) (hne : uid ≠ "")
    (hup : ∃ upRes, env.pinataUpload req.audioBuffer req.audioMetadata env.newId
        = .ok upRes)
    (hai : ∀ url txt lvl, env.gemini url txt lvl = .ok ar)
    (huser : findUser users uid = some user)
    (hthrow : env.userUpdateThrows = some e) :
    (analyzePronunciation env users req).response = .error e ∧
    (analyzePronunciation env users req).finalRow.processingStatus = .failed ∧
    (e ≠ "" → (analyzePronunciation env users req).finalRow.errorMessage = some e) ∧
    (∃ row ∈ (analyzePronunciation env users req).trace,
      row.processingStatus = .completed) := by
  obtain ⟨upRes, hup⟩ := hup
  have hu : uploadAudioToIPFS env req.audioBuffer req.audioMetadata env.newId
      = .ok (upRes.IpfsHash, getPublicUrl env.gatewayUrl upRes.IpfsHash) := by
    simp [uploadAudioToIPFS, hup]
  have ha : performAIAnalysis env users (getPublicUrl env.gatewayUrl upRes.IpfsHash)
      req.originalText req.userId = .ok ar := by
    simp [performAIAnalysis, hai]
  have ht : jsTruthyStr req.userId = some uid := by simp [jsTruthyStr, huid, hne]
  have hs : updateUserStatistics env users uid ar.overallScore = .error e := by
    simp [updateUserStatistics, huser, hthrow]
  refine ⟨by simp [analyzePronunciation, hu, ha, ht, hs],
    by simp [analyzePronunciation, hu, ha, ht, hs, updateProcessingStatus],
    fun hene => by
      simp [analyzePronunciation, hu, ha, ht, hs, updateProcessingStatus, hene],
    ?_⟩
  refine ⟨finalizeAnalysis (updateAttemptWithIPFS
    (updateProcessingStatus (createInitialAttempt env req) .processing none)
    upRes.IpfsHash (getPublicUrl env.gatewayUrl upRes.IpfsHash)) ar,
    by simp [analyzePronunciation, hu, ha, ht, hs],
    by simp [finalizeAnalysis]⟩

/-- Witness for C5: a concrete run whose statistics update throws. -/
theorem c5_witness :
    (analyzePronunciation envStatsFail [userDemo] reqUser).response
        = .error "stats write failed" ∧
    (analyzePronunciation envStatsFail [userDemo] reqUser).finalRow.processingStatus
        = .failed ∧
    ("stats write failed" ≠ "" →
      (analyzePronunciation envStatsFail [userDemo] reqUser).finalRow.errorMessage
        = some "stats write failed") ∧
    (∃ row ∈ (analyzePronunciation envStatsFail [userDemo] reqUser).trace,
      row.processingStatus = .completed) :=
  c5_stats_failure_marks_failed envStatsFail [userDemo] reqUser "u1" userDemo arDemo
    "stats write failed" rfl (by decide) ⟨upResDemo, rfl⟩ (fun _ _ _ => rfl) rfl rfl

/-- C6: completing an attempt with score s moves an existing user from
(n, avg) to (n + 1, round to one decimal of (avg * n + s) / (n + 1)); in
particular (3, 80) with a 90 becomes (4, 82.5). -/
theorem c6_incremental_average_update (env : Env) (u : User) (s avg : ℚ)
    (hthrow : env.userUpdateThrows = none) (havg : u.averageScore = some avg) :
    (updateUserStatistics env [u] u.id s =
      .ok [{ u with
        totalAttempts := u.totalAttempts + 1
        averageScore := some (round1
          ((avg * u.totalAttempts + s) / (u.totalAttempts + 1))) }]) ∧
    updateUserStatistics env [userDemo] "u1" 90
      = .ok [{ userDemo with totalAttempts := 4, averageScore := some (165 / 2) }] := by
  constructor
  · simp [updateUserStatistics, findUser, hthrow, havg, jsOrZeroQ]
  · simp only [updateUserStatistics]
    rw [show findUser [userDemo] "u1" = some userDemo from rfl, hthrow]
    simp only [userDemo, List.map]
    norm_num [round1, jsRound, jsOrZeroQ]

/-- Witness for C6: the concrete user with three attempts at average 80. -/
theorem c6_witness :
    (updateUserStatistics envOk [userDemo] userDemo.id 90 =
      .ok [{ userDemo with
        totalAttempts := userDemo.totalAttempts + 1
        averageScore := some (round1
          ((80 * userDemo.totalAttempts + 90) / (userDemo.totalAttempts + 1))) }]) ∧
    updateUserStatistics envOk [userDemo] "u1" 90
      = .ok [{ userDemo with totalAttempts := 4, averageScore := some (165 / 2) }] :=
  c6_incremental_average_update envOk userDemo 90 80 rfl rfl

/-- A clamped score is NaN or lies between 0 and 100. -/
theorem clampScore_nan_or_range (strToNum : String → JsNumber)
    (arrToNum : List Json → JsNumber) (v : Option Json) :
    clampScore strToNum arrToNum v = .nan ∨
    ∃ q, clampScore strToNum arrToNum v = .num q ∧ 0 ≤ q ∧ q ≤ 100 := by
  rcases h : Json.toNumber strToNum arrToNum (jsOrElse v (.num 0)) with _ | q
  · left
    simp [clampScore, h, jsMin, jsMax]
  · right
    exact ⟨max 0 (min 100 q), by simp [clampScore, h, jsMin, jsMax],
      le_max_left _ _, max_le (by norm_num) (min_le_left _ _)⟩

/-- Every parse outcome is either the fallback result or has both scores
equal to a clamp of the corresponding parsed field. -/
theorem parseAnalysisResult_fallback_or_clamp (jsonParse : String → Option Json)
    (strToNum : String → JsNumber) (arrToNum : List Json → JsNumber)
    (analysisText : String) :
    parseAnalysisResult jsonParse strToNum arrToNum analysisText
        = fallbackResult analysisText ∨
    ∃ parsed : Json,
      (parseAnalysisResult jsonParse strToNum arrToNum analysisText).overallScore
          = clampScore strToNum arrToNum (parsed.getProp "overallScore") ∧
      (parseAnalysisResult jsonParse strToNum arrToNum analysisText).toneAccuracy
          = clampScore strToNum arrToNum (parsed.getProp "toneAccuracy") := by
  rcases he : extractJson analysisText with _ | j
  · left
    simp [parseAnalysisResult, he]
  · rcases hp : jsonParse j with _ | parsed
    · left
      simp [parseAnalysisResult, he, hp]
    · rcases parsed with q | s | b | _ | l | fields
      · exact Or.inr ⟨.num q, by simp [parseAnalysisResult, he, hp],
          by simp [parseAnalysisResult, he, hp]⟩
      · exact Or.inr ⟨.str s, by simp [parseAnalysisResult, he, hp],
          by simp [parseAnalysisResult, he, hp]⟩
      · exact Or.inr ⟨.bool b, by simp [parseAnalysisResult, he, hp],
          by simp [parseAnalysisResult, he, hp]⟩
      · left
        simp [parseAnalysisResult, he, hp]
      · exact Or.inr ⟨.arr l, by simp [parseAnalysisResult, he, hp],
          by simp [parseAnalysisResult, he, hp]⟩
      · exact Or.inr ⟨.obj fields, by simp [parseAnalysisResult, he, hp],
          by simp [parseAnalysisResult, he, hp]⟩

/-- The JSON value JSON.parse produces for the response text whose
overallScore field is an empty object. -/
def jsonObjScoreDemo : Json := .obj [("overallScore", .obj [])]

/-- C7 counterexample: for the response text holding the JSON object
whose overallScore field is itself an object, the extraction succeeds,
JSON.parse succeeds, and the parser returns overallScore NaN: the truthy
object survives the falsy-or-zero default and the coercing Math.min turns
it into NaN, which lies outside the interval from 0 to 100. -/
theorem c7_counterexample :
    extractJson "\x7b\"overallScore\": \x7b\x7d\x7d"
      = some "\x7b\"overallScore\": \x7b\x7d\x7d" ∧
    (parseAnalysisResult (fun _ => some jsonObjScoreDemo) (fun _ => .nan)
        (fun _ => .nan) "\x7b\"overallScore\": \x7b\x7d\x7d").overallScore
      = JsNumber.nan :=
  ⟨rfl, rfl⟩

/-- C7 (amended): when the model response contains no JSON object the
parser returns exactly the fixed fallback result and never fails; and for
every response text, every JSON.parse behaviour and every string and
array ToNumber coercion, each returned score is either NaN (a truthy
non-numeric field survives the falsy-or-zero default and fails numeric
coercion) or lies in the interval from 0 to 100. -/
theorem c7_parse_fallback_and_nan_or_clamp (jsonParse : String → Option Json)
    (strToNum : String → JsNumber) (arrToNum : List Json → JsNumber)
    (analysisText : String) :
    (extractJson analysisText = none →
      parseAnalysisResult jsonParse strToNum arrToNum analysisText =
        { overallScore := .num 75
          toneAccuracy := .num 70
          pronunciationErrors := [.str "Không thể phân tích chi tiết"]
          suggestions := [.str "Hãy thử lại với âm thanh rõ ràng hơn"]
          detailedFeedback := .str (String.mk (analysisText.data.take 500)) }) ∧
    ((parseAnalysisResult jsonParse strToNum arrToNum analysisText).overallScore
        = .nan ∨
      ∃ q, (parseAnalysisResult jsonParse strToNum arrToNum analysisText).overallScore
          = .num q ∧ 0 ≤ q ∧ q ≤ 100) ∧
    ((parseAnalysisResult jsonParse strToNum arrToNum analysisText).toneAccuracy
        = .nan ∨
      ∃ q, (parseAnalysisResult jsonParse strToNum arrToNum analysisText).toneAccuracy
          = .num q ∧ 0 ≤ q ∧ q ≤ 100) := by
  refine ⟨?_, ?_, ?_⟩
  · intro hnone
    simp [parseAnalysisResult, hnone, fallbackResult]
  · rcases parseAnalysisResult_fallback_or_clamp jsonParse strToNum arrToNum analysisText
      with h | ⟨parsed, h1, h2⟩
    · right
      exact ⟨75, by rw [h]; rfl, by norm_num, by norm_num⟩
    · rw [h1]
      exact clampScore_nan_or_range _ _ _
  · rcases parseAnalysisResult_fallback_or_clamp jsonParse strToNum arrToNum analysisText
      with h | ⟨parsed, h1, h2⟩
    · right
      exact ⟨70, by rw [h]; rfl, by norm_num, by norm_num⟩
    · rw [h2]
      exact clampScore_nan_or_range _ _ _

/-- Witness for C7 amended: a response text without any JSON object,
under a JSON.parse that always fails. -/
theorem c7_witness :
    parseAnalysisResult (fun _ => none) (fun _ => JsNumber.nan)
        (fun _ => JsNumber.nan) "khong co json o day"
      = { overallScore := .num 75
          toneAccuracy := .num 70
          pronunciationErrors := [.str "Không thể phân tích chi tiết"]
          suggestions := [.str "Hãy thử lại với âm thanh rõ ràng hơn"]
          detailedFeedback :=
            .str (String.mk (("khong co json o day" : String).data.take 500)) } ∧
    ((parseAnalysisResult (fun _ => none) (fun _ => JsNumber.nan)
        (fun _ => JsNumber.nan) "khong co json o day").overallScore = .nan ∨
      ∃ q, (parseAnalysisResult (fun _ => none) (fun _ => JsNumber.nan)
          (fun _ => JsNumber.nan) "khong co json o day").overallScore
        = .num q ∧ 0 ≤ q ∧ q ≤ 100) ∧
    ((parseAnalysisResult (fun _ => none) (fun _ => JsNumber.nan)
        (fun _ => JsNumber.nan) "khong co json o day").toneAccuracy = .nan ∨
      ∃ q, (parseAnalysisResult (fun _ => none) (fun _ => JsNumber.nan)
          (fun _ => JsNumber.nan) "khong co json o day").toneAccuracy
        = .num q ∧ 0 ≤ q ∧ q ≤ 100) :=
  ⟨(c7_parse_fallback_and_nan_or_clamp (fun _ => none) (fun _ => JsNumber.nan)
      (fun _ => JsNumber.nan) "khong co json o day").1 rfl,
   (c7_parse_fallback_and_nan_or_clamp (fun _ => none) (fun _ => JsNumber.nan)
      (fun _ => JsNumber.nan) "khong co json o day").2.1,
   (c7_parse_fallback_and_nan_or_clamp (fun _ => none) (fun _ => JsNumber.nan)
      (fun _ => JsNumber.nan) "khong co json o day").2.2⟩

/-- C8: when the upload succeeds with a non-empty hash and the AI call
then fails, the row ends failed while audioFileUrl and ipfsHash keep the
non-empty values written after the upload; the failure handler changes
only processingStatus and errorMessage. -/
theorem c8_ai_failure_preserves_upload_fields (env : Env) (users : List User)
    (req : CreatePronunciationAttemptRequest) (upRes : PinataUploadResponse)
    (e : String)
    (hhash : upRes.IpfsHash ≠ "")
    (hup : env.pinataUpload req.audioBuffer req.audioMetadata env.newId = .ok upRes)
    (hai : ∀ url txt lvl, env.gemini url txt lvl = .error e) :
    (analyzePronunciation env users req).finalRow.processingStatus = .failed ∧
    (analyzePronunciation env users req).finalRow.audioFileUrl
        = getPublicUrl env.gatewayUrl upRes.IpfsHash ∧
    (analyzePronunciation env users req).finalRow.ipfsHash = upRes.IpfsHash ∧
    (analyzePronunciation env users req).finalRow.audioFileUrl ≠ "" ∧
    (analyzePronunciation env users req).finalRow.ipfsHash ≠ "" ∧
    (analyzePronunciation env users req).finalRow
        = { updateAttemptWithIPFS
              (updateProcessingStatus (createInitialAttempt env req) .processing none)
              upRes.IpfsHash (getPublicUrl env.gatewayUrl upRes.IpfsHash) with
            processingStatus := .failed
            errorMessage := some ("AI analysis failed: " ++ e) } := by
  have hu : uploadAudioToIPFS env req.audioBuffer req.audioMetadata env.newId
      = .ok (upRes.IpfsHash, getPublicUrl env.gatewayUrl upRes.IpfsHash) := by
    simp [uploadAudioToIPFS, hup]
  have ha : performAIAnalysis env users (getPublicUrl env.gatewayUrl upRes.IpfsHash)
      req.originalText req.userId = .error ("AI analysis failed: " ++ e) := by
    simp [performAIAnalysis, hai]
  have hwne : ("AI analysis failed: " ++ e) ≠ "" := by
    apply prefixed_ne_empty
    have h20 : ("AI analysis failed: ").length = 20 := rfl
    omega
  have hurl : getPublicUrl env.gatewayUrl upRes.IpfsHash ≠ "" := by
    apply prefixed_ne_empty
    rw [String.length_append, String.length_append]
    have h8 : ("https://").length = 8 := rfl
    omega
  have hfinal : (analyzePronunciation env users req).finalRow
      = { updateAttemptWithIPFS
            (updateProcessingStatus (createInitialAttempt env req) .processing none)
            upRes.IpfsHash (getPublicUrl env.gatewayUrl upRes.IpfsHash) with
          processingStatus := .failed
          errorMessage := some ("AI analysis failed: " ++ e) } := by
    simp [analyzePronunciation, hu, ha, updateProcessingStatus, hwne]
  rw [hfinal]
  refine ⟨rfl, ?_, ?_, ?_, ?_, rfl⟩ <;>
    simp [updateAttemptWithIPFS, updateProcessingStatus, createInitialAttempt, hurl, hhash]

/-- Witness for C8: a concrete run whose AI call fails after the upload. -/
theorem c8_witness :
    (analyzePronunciation envAIFail [] reqAnon).finalRow.processingStatus = .failed ∧
    (analyzePronunciation envAIFail [] reqAnon).finalRow.audioFileUrl
        = getPublicUrl envAIFail.gatewayUrl upResDemo.IpfsHash ∧
    (analyzePronunciation envAIFail [] reqAnon).finalRow.ipfsHash = upResDemo.IpfsHash ∧
    (analyzePronunciation envAIFail [] reqAnon).finalRow.audioFileUrl ≠ "" ∧
    (analyzePronunciation envAIFail [] reqAnon).finalRow.ipfsHash ≠ "" ∧
    (analyzePronunciation envAIFail [] reqAnon).finalRow
        = { updateAttemptWithIPFS
              (updateProcessingStatus (createInitialAttempt envAIFail reqAnon)
                .processing none)
              upResDemo.IpfsHash (getPublicUrl envAIFail.gatewayUrl upResDemo.IpfsHash) with
            processingStatus := .failed
            errorMessage := some ("AI analysis failed: " ++ "quota exceeded") } :=
  c8_ai_failure_preserves_upload_fields envAIFail [] reqAnon upResDemo "quota exceeded"
    (by decide) rfl (fun _ _ _ => rfl)

/-- C9: the listing is ordered newest-first, returns at most limit rows
after skipping (page - 1) * limit of the user's total rows, and reports
totalPages as the rounded-up quotient of total by limit; in particular
page 2 with limit 10 over 15 rows returns 5 rows with totalPages 2. -/
theorem c9_pagination (db : List PronunciationAttempt) (uid : String)
    (page limit : ℕ) (hpage : 1 ≤ page) (hlim : 0 < limit) :
    List.Pairwise (fun x y : PronunciationAnalysisResponse => y.createdAt ≤ x.createdAt)
      (getUserPronunciationAttempts db uid page limit).attempts ∧
    (getUserPronunciationAttempts db uid page limit).attempts.length
      = min limit ((getUserPronunciationAttempts db uid page limit).total
          - (page - 1) * limit) ∧
    (getUserPronunciationAttempts db uid page limit).totalPages
      = ((getUserPronunciationAttempts db uid page limit).total + limit - 1) / limit ∧
    (getUserPronunciationAttempts db15demo "u1" 2 10).attempts.length = 5 ∧
    (getUserPronunciationAttempts db15demo "u1" 2 10).total = 15 ∧
    (getUserPronunciationAttempts db15demo "u1" 2 10).totalPages = 2 := by
  refine ⟨?_, ?_, ?_, rfl, rfl, ?_⟩
  · simp only [getUserPronunciationAttempts]
    rw [List.pairwise_map]
    have hs : List.Pairwise byCreatedAtDesc
        ((db.filter (fun a => a.userId == some uid)).insertionSort byCreatedAtDesc) :=
      List.sorted_insertionSort byCreatedAtDesc _
    have hsub : List.Sublist
        ((((db.filter (fun a => a.userId == some uid)).insertionSort
            byCreatedAtDesc).drop ((page - 1) * limit)).take limit)
        ((db.filter (fun a => a.userId == some uid)).insertionSort byCreatedAtDesc) :=
      (List.take_sublist _ _).trans (List.drop_sublist _ _)
    exact (List.Pairwise.sublist hsub hs).imp (fun h => h)
  · simp only [getUserPronunciationAttempts]
    rw [List.length_map, List.length_take, List.length_drop, List.length_insertionSort]
  · simp only [getUserPronunciationAttempts]
    exact natCeil_cast_div _ limit hlim
  · simp only [getUserPronunciationAttempts]
    rw [natCeil_cast_div _ 10 (by norm_num)]
    norm_num [show (db15demo.filter (fun a => a.userId == some "u1")).length = 15 from rfl]

/-- Witness for C9: the 15-row table at page 2 with limit 10. -/
theorem c9_witness :
    List.Pairwise (fun x y : PronunciationAnalysisResponse => y.createdAt ≤ x.createdAt)
      (getUserPronunciationAttempts db15demo "u1" 2 10).attempts ∧
    (getUserPronunciationAttempts db15demo "u1" 2 10).attempts.length
      = min 10 ((getUserPronunciationAttempts db15demo "u1" 2 10).total - (2 - 1) * 10) ∧
    (getUserPronunciationAttempts db15demo "u1" 2 10).totalPages
      = ((getUserPronunciationAttempts db15demo "u1" 2 10).total + 10 - 1) / 10 ∧
    (getUserPronunciationAttempts db15demo "u1" 2 10).attempts.length = 5 ∧
    (getUserPronunciationAttempts db15demo "u1" 2 10).total = 15 ∧
    (getUserPronunciationAttempts db15demo "u1" 2 10).totalPages = 2 :=
  c9_pagination db15demo "u1" 2 10 (by norm_num) (by norm_num)

/-- C10: when a user id is supplied but no such user row exists, the
statistics update returns normally and leaves the user table unchanged,
and the attempt still completes. -/
theorem c10_missing_user_skipped (env : Env) (users : List User)
    (req : CreatePronunciationAttemptRequest) (uid : String)
    (upRes : PinataUploadResponse) (ar : AnalysisResult)
    (huid : req.userId = some uid) (hne : uid ≠ "")
    (hmiss : findUser users uid = none)
    (hup : env.pinataUpload req.audioBuffer req.audioMetadata env.newId = .ok upRes)
    (hai : ∀ url txt lvl, env.gemini url txt lvl = .ok ar) :
    (∀ s, updateUserStatistics env users uid s = .ok users) ∧
    (∃ resp, (analyzePronunciation env users req).response = .ok resp ∧
      resp.processingStatus = .completed) ∧
    (analyzePronunciation env users req).finalRow.processingStatus = .completed ∧
    (analyzePronunciation env users req).users = users := by
  have hu : uploadAudioToIPFS env req.audioBuffer req.audioMetadata env.newId
      = .ok (upRes.IpfsHash, getPublicUrl env.gatewayUrl upRes.IpfsHash) := by
    simp [uploadAudioToIPFS, hup]
  have ha : performAIAnalysis env users (getPublicUrl env.gatewayUrl upRes.IpfsHash)
      req.originalText req.userId = .ok ar := by
    simp [performAIAnalysis, hai]
  have ht : jsTruthyStr req.userId = some uid := by simp [jsTruthyStr, huid, hne]
  have hs : ∀ s, updateUserStatistics env users uid s = .ok users := by
    intro s; simp [updateUserStatistics, hmiss]
  refine ⟨hs, ⟨mapToResponse (finalizeAnalysis (updateAttemptWithIPFS
      (updateProcessingStatus (createInitialAttempt env req) .processing none)
      upRes.IpfsHash (getPublicUrl env.gatewayUrl upRes.IpfsHash)) ar),
      by simp [analyzePronunciation, hu, ha, ht, hs],
      by simp [mapToResponse, finalizeAnalysis]⟩,
    by simp [analyzePronunciation, hu, ha, ht, hs, finalizeAnalysis],
    by simp [analyzePronunciation, hu, ha, ht, hs]⟩

/-- Witness for C10: a concrete run with a supplied user id over an empty
user table. -/
theorem c10_witness :
    (∀ s, updateUserStatistics envOk [] "u1" s = .ok []) ∧
    (∃ resp, (analyzePronunciation envOk [] reqUser).response = .ok resp ∧
      resp.processingStatus = .completed) ∧
    (analyzePronunciation envOk [] reqUser).finalRow.processingStatus = .completed ∧
    (analyzePronunciation envOk [] reqUser).users = [] :=
  c10_missing_user_skipped envOk [] reqUser "u1" upResDemo arDemo rfl (by decide)
    rfl rfl (fun _ _ _ => rfl)

end HocTieng
